import Mathlib

/-!
Verification development for the `MamsiPls` class (`mamsi/mamsi_pls.py`):
latent-variable selection (`estimate_lv`, `_find_plateau`), multi-block VIP
scores (`mb_vip`) and the permutation significance test (`mb_vip_permtest`).

Scores are embedded as exact rationals; the external MB-PLS fitting engine
(the `mbpls` package) is left abstract, as a function producing a fitted
state, and everything the repository itself computes is translated directly
from `mamsi_pls.py`.
-/

namespace Mamsi

/-! ## Curve-shape analysis: `_find_plateau` (mamsi_pls.py lines 413-434) -/

/-- Inner loop of `_find_plateau`: for `j in range(consecutive_elements - 1)`
the code computes `diff = abs(scores[i + j] - scores[i + j - 1])` and rejects
the candidate as soon as `diff > range_threshold`.  `plateauAt scores thr ce i`
is `true` exactly when the inner loop finishes with `plateau = True`. -/
def plateauAt (scores : List ℚ) (thr : ℚ) (ce : ℕ) (i : ℕ) : Bool :=
  (List.range (ce - 1)).all
    (fun j => decide (|scores.getD (i + j) 0 - scores.getD (i + j - 1) 0| ≤ thr))

/-- Translation of `_find_plateau(scores, range_threshold, consecutive_elements)`:
the outer loop runs `for i in range(1, n - consecutive_elements + 1)` and
returns `(i, i + consecutive_elements - 1)` at the first `i` passing the inner
check; if the loop falls through it returns `(None, None)`, modelled as
`none`. -/
def find_plateau (scores : List ℚ) (thr : ℚ) (ce : ℕ) : Option (ℕ × ℕ) :=
  ((List.range' 1 (scores.length - ce)).find? (plateauAt scores thr ce)).map
    (fun i => (i, i + ce - 1))

/-- A window of `ce` consecutive scores starting at (0-based) index `k` is
flat: every adjacent pair inside `scores[k .. k + ce - 1]` differs by at most
`thr` in absolute value.  This is the window notion the specification
describes. -/
def windowFlat (scores : List ℚ) (thr : ℚ) (ce : ℕ) (k : ℕ) : Bool :=
  (List.range (ce - 1)).all
    (fun j => decide (|scores.getD (k + j + 1) 0 - scores.getD (k + j) 0| ≤ thr))

/-- Modelled from the wording of the specification, for comparison with
`find_plateau`: return the `(start, end)` index pair of the first window of
`ce` consecutive scores in which every adjacent pair differs by at most
`thr`, scanning from the lowest index upward; `none` when no window
qualifies. -/
def specFirstFlatWindow (scores : List ℚ) (thr : ℚ) (ce : ℕ) : Option (ℕ × ℕ) :=
  ((List.range (scores.length + 1 - ce)).find? (windowFlat scores thr ce)).map
    (fun k => (k, k + ce - 1))

/-! ## Curve-shape analysis: bend detection (mamsi_pls.py line 247)

The source computes
`bend = np.min(np.where(np.diff(data) / data[0] < increase_threshold)[0]) + 1`.
`np.diff data` has length `n - 1`; `np.where` yields the set of indices where
the normalized difference is strictly below the threshold; `np.min` of an
empty index set raises `ValueError`, modelled as `none`. -/

/-- The condition tested by `np.where`: the successive difference at
diff-index `i`, normalized by `data[0]`, is strictly below `thr`. -/
def bendCond (data : List ℚ) (thr : ℚ) (i : ℕ) : Bool :=
  decide ((data.getD (i + 1) 0 - data.getD i 0) / data.getD 0 0 < thr)

/-- Translation of line 247: minimum of the qualifying diff-indices, plus
one; `none` models the `ValueError` numpy raises on an empty reduction. -/
def bend (data : List ℚ) (thr : ℚ) : Option ℕ :=
  (((List.range (data.length - 1)).filter (bendCond data thr)).min?).map
    (fun i => i + 1)

/-! ## `estimate_lv`: metric validation (mamsi_pls.py lines 114-124) -/

/-- Translation of lines 114-124 of `estimate_lv`.  For a continuous outcome
the code first executes the assignment `metric = 'q2'` and only then tests
membership in `allowed_metrics = ['q2']`, so that test can never fail; for a
categorical outcome the requested metric is tested against the allowed list
and a `ValueError` is raised on failure. -/
def validate_metric (y_continuous : Bool) (metric : String) : Except String String :=
  if y_continuous then
    let metric := "q2"
    if metric ∉ ["q2"] then
      Except.error "ValueError: Invalid metric continuous outcome"
    else
      Except.ok metric
  else
    if metric ∉ ["auc", "precision", "recall", "f1", "accuracy"] then
      Except.error "ValueError: Invalid metric for categorical outcome"
    else
      Except.ok metric

/-! ## `estimate_lv`: component-count selection (mamsi_pls.py lines 246-273) -/

/-- The slice of `MamsiPls` state that the final phase of `estimate_lv`
updates: the component count and the arguments of the last `self.fit` call
(data blocks, response, component count in effect during the fit). -/
structure EstimatorState (X Y : Type) where
  n_components : ℕ
  fitted_on : Option (X × Y × ℕ)

/-- Outcome of the selection phase: the updated estimator state plus whether
the advisory (`No plateau detected, consider exploring more latent
variables.`) was printed. -/
structure LvSelection (X Y : Type) where
  state : EstimatorState X Y
  advisory : Bool

/-- Translation of lines 246-273 of `estimate_lv`, after the cross-validated
curve `dat` (the test-fold column of the chosen metric) has been built.
Line 247 computes the bend; `np.min` of an empty index set raises
`ValueError`, which aborts the whole call and is modelled as `Except.error`.
Line 248 computes the plateau.  In the `try` block, `plt.axvline(None)`
raises `TypeError` when the plateau start is `None`, so control jumps to the
`except TypeError` branch, which selects the bend and prints the advisory;
otherwise the plateau start is selected.  Both branches set
`self.n_components` to the selected count and call `self.fit(x, y)` on the
full dataset. -/
def estimate_lv_select {X Y : Type} (x : X) (y : Y) (dat : List ℚ)
    (increase_threshold plateau_threshold : ℚ) : Except String (LvSelection X Y) :=
  match bend dat increase_threshold with
  | none => Except.error "ValueError: zero-size array to reduction operation minimum"
  | some b =>
    match find_plateau dat plateau_threshold 3 with
    | some (ps, _) => Except.ok ⟨⟨ps, some (x, y, ps)⟩, false⟩
    | none => Except.ok ⟨⟨b, some (x, y, b)⟩, true⟩

/-! ## Multi-block VIP scores: `mb_vip` (mamsi_pls.py lines 321-349) -/

/-- Internal matrices of a fitted MB-PLS model read by `mb_vip`: per-block
weight matrices `W_`, super-scores `Ts_` (rows are observations), y-loadings
`V_`, per-block loadings `P_`, and the number of latent variables.  Matrix
rows are total functions from component index to entry. -/
structure FittedModel where
  n_components : ℕ
  W : List (List (ℕ → ℚ))
  Ts : List (ℕ → ℚ)
  V : List (ℕ → ℚ)
  P : List (List (ℕ → ℚ))

/-- Row `f` of `weights = np.vstack(self.W_)`, the stacked
feature × component weight matrix (an out-of-range row index gives the zero
row). -/
def stackedWeights (m : FittedModel) (f : ℕ) : ℕ → ℚ :=
  m.W.flatten.getD f (fun _ => 0)

/-- Component weight
`sum_squares = np.sum(self.Ts_ ** 2, axis=0) * np.sum(self.V_ ** 2, axis=0)`. -/
def sum_squares (m : FittedModel) (c : ℕ) : ℚ :=
  ((m.Ts.map (fun row => row c ^ 2)).sum) * ((m.V.map (fun row => row c ^ 2)).sum)

/-- Total feature count `p = np.vstack(self.P_).shape[0]`. -/
def numFeatures (m : FittedModel) : ℕ :=
  m.P.flatten.length

/-- Radicand of the MB-VIP score of feature `f`:
`p * np.sum(sum_squares * (weights ** 2), axis=1) / np.sum(sum_squares)`
(the sum over `axis=1` runs over the components). -/
def mb_vip_sq (m : FittedModel) (f : ℕ) : ℚ :=
  (numFeatures m : ℚ) *
      (∑ c ∈ Finset.range m.n_components, sum_squares m c * (stackedWeights m f c) ^ 2) /
    (∑ c ∈ Finset.range m.n_components, sum_squares m c)

/-- MB-VIP score of feature `f`:
`vip_scores = np.sqrt(p * np.sum(sum_squares * (weights ** 2), axis=1) / np.sum(sum_squares))`. -/
noncomputable def mb_vip (m : FittedModel) (f : ℕ) : ℝ :=
  Real.sqrt ((mb_vip_sq m f : ℚ) : ℝ)

/-- All per-block weight matrices multiplied by `-1` simultaneously, holding
`Ts_`, `V_` and `P_` fixed. -/
def negateWeights (m : FittedModel) : FittedModel :=
  { m with W := m.W.map (List.map (fun row => fun c => -(row c))) }

/-! ## Permutation significance test: `mb_vip_permtest` (lines 351-411) -/

/-- Result of `mb_vip_permtest` together with the model state it leaves
behind.  `p_vals` is kept exact: a count divided by `n_permutations`. -/
structure PermtestResult where
  p_vals : ℕ → ℚ
  vip_null : ℕ → ℕ → ℝ
  finalModel : FittedModel

/-- Translation of `mb_vip_permtest(x, y, n_permutations)` with the external
engine abstracted: `fit x r` is the fitted state `self` holds after
`self.fit(x, r)`, and `perm i` is the `i`-th draw of
`np.random.permutation(_y)` (a freshly permuted copy of the response `y`).
`m0` is the fitted state on entry.  The observed VIP vector is computed once
up front (line 390).  Each trial refits on the permuted response — line 399
passes the caller-supplied `x` to `self.fit` — and appends the recomputed
VIP vector to the null distribution.  The p-value of feature `f` counts the
trials whose null VIP at `f` is `>=` the observed VIP at `f` (line 404) and
divides by `n_permutations` (line 405).  After the loop the model keeps the
state of the last permuted fit; no refit on the original response occurs. -/
noncomputable def mb_vip_permtest {X Y : Type} (fit : X → Y → FittedModel)
    (x : X) (_y : Y) (M : ℕ) (perm : ℕ → Y) (m0 : FittedModel) : PermtestResult :=
  { p_vals := fun f =>
      ((@Finset.filter ℕ (fun i => mb_vip m0 f ≤ mb_vip (fit x (perm i)) f)
          (Classical.decPred _) (Finset.range M)).card : ℚ) / (M : ℚ)
    vip_null := fun i => mb_vip (fit x (perm i))
    finalModel := if M = 0 then m0 else fit x (perm (M - 1)) }

/-- Object-level data flow of the predictor blocks inside `mb_vip_permtest`,
with python objects modelled as numeric identities and `deepcopy` returning
a fresh object: line 381 binds `_x` to `deepcopy.deepcopy(x)` (a new object,
modelled as the next identity), and line 399 calls `self.fit(x, y_perm)`
with the caller-supplied `x` itself. -/
structure PermtestBlocksFlow where
  x_id : ℕ
  deepcopy_id : ℕ
  fit_arg_id : ℕ

/-- Identities of the block objects handled by `mb_vip_permtest`: the deep
copy is a fresh object, and the object passed to `self.fit` inside the loop
is the original `x`. -/
def mb_vip_permtest_blocksFlow (x_id : ℕ) : PermtestBlocksFlow :=
  { x_id := x_id
    deepcopy_id := x_id + 1
    fit_arg_id := x_id }

/-! ## Concrete instances used to exercise the permutation test -/

/-- A fitted model with one block, one feature, one component, one
observation; its weight entry is `2`, so its MB-VIP score at feature `0`
is `sqrt 4 = 2`. -/
def mObs : FittedModel :=
  { n_components := 1
    W := [[fun _ => 2]]
    Ts := [fun _ => 1]
    V := [fun _ => 1]
    P := [[fun _ => 0]] }

/-- Like `mObs` but with weight entry `1`: its MB-VIP score at feature `0`
is `sqrt 1 = 1`. -/
def mNullOne : FittedModel :=
  { n_components := 1
    W := [[fun _ => 1]]
    Ts := [fun _ => 1]
    V := [fun _ => 1]
    P := [[fun _ => 0]] }

/-- A concrete external engine whose every fit yields `mNullOne`. -/
def fitNullOne : Unit → Unit → FittedModel :=
  fun _ _ => mNullOne

end Mamsi

namespace Mamsi

/-! ## Helper lemmas -/

theorem head?_filter_eq_find? (p : α → Bool) (l : List α) :
    (l.filter p).head? = l.find? p := by
  induction l with
  | nil => rfl
  | cons a t ih =>
      by_cases h : p a
      · simp [List.filter_cons, List.find?_cons, h]
      · simp only [Bool.not_eq_true] at h
        simp [List.filter_cons, List.find?_cons, h, ih]

theorem min?_eq_head?_of_sorted {l : List ℕ} (h : l.Sorted (· ≤ ·)) :
    l.min? = l.head? := by
  cases l with
  | nil => rfl
  | cons a t =>
      have hmem : ∀ b ∈ t, a ≤ b := (List.sorted_cons.mp h).1
      have : (a :: t).min? = some a := by
        rw [List.min?_eq_some_iff']
        exact ⟨List.mem_cons_self a t, by
          intro b hb
          rcases List.mem_cons.mp hb with rfl | hbt
          · exact le_refl b
          · exact hmem b hbt⟩
      rw [this]; rfl

theorem filter_range_sorted (p : ℕ → Bool) (n : ℕ) :
    ((List.range n).filter p).Sorted (· ≤ ·) :=
  (List.pairwise_le_range n).filter p

theorem bend_eq_find? (data : List ℚ) (thr : ℚ) :
    bend data thr
      = ((List.range (data.length - 1)).find? (bendCond data thr)).map (fun i => i + 1) := by
  unfold bend
  rw [min?_eq_head?_of_sorted (filter_range_sorted _ _), head?_filter_eq_find?]

theorem plateauAt_succ_eq_windowFlat (scores : List ℚ) (thr : ℚ) (ce : ℕ) :
    (plateauAt scores thr ce) ∘ (fun k => 1 + k) = windowFlat scores thr ce := by
  funext k
  unfold plateauAt windowFlat
  simp only [Function.comp_apply]
  congr 1
  funext j
  have h1 : 1 + k + j = k + j + 1 := by omega
  have h2 : k + j + 1 - 1 = k + j := by omega
  rw [h1, h2]

theorem stackedWeights_negateWeights (m : FittedModel) (f : ℕ) (c : ℕ) :
    stackedWeights (negateWeights m) f c = -(stackedWeights m f c) := by
  unfold stackedWeights negateWeights
  rw [← List.map_flatten]
  rcases h : m.W.flatten[f]? with _ | row
  · rw [List.getD_eq_getElem?_getD, List.getElem?_map, h,
      List.getD_eq_getElem?_getD, h]
    simp
  · rw [List.getD_eq_getElem?_getD, List.getElem?_map, h,
      List.getD_eq_getElem?_getD, h]
    rfl

theorem mb_vip_sq_negateWeights (m : FittedModel) (f : ℕ) :
    mb_vip_sq (negateWeights m) f = mb_vip_sq m f := by
  unfold mb_vip_sq
  have hn : (negateWeights m).n_components = m.n_components := rfl
  have hss : ∀ c, sum_squares (negateWeights m) c = sum_squares m c := fun _ => rfl
  have hp : numFeatures (negateWeights m) = numFeatures m := rfl
  have hW : ∀ c, stackedWeights (negateWeights m) f c ^ 2 = stackedWeights m f c ^ 2 :=
    fun c => by rw [stackedWeights_negateWeights, neg_sq]
  rw [hn, hp]
  simp only [hss, hW]

theorem card_filter_range_eq (M : ℕ) (Q : ℕ → Prop) [DecidablePred Q] :
    ((Finset.range M).filter Q).card = Fintype.card {i : Fin M // Q i.val} := by
  rw [Fintype.card_subtype]
  rw [Finset.card_filter, Finset.card_filter]
  exact (Fin.sum_univ_eq_sum_range (fun i => if Q i then 1 else 0) M).symm

theorem mb_vip_sq_mObs : mb_vip_sq mObs 0 = 4 := by
  norm_num [mb_vip_sq, mObs, numFeatures, sum_squares, stackedWeights,
    Finset.sum_range_succ]

theorem mb_vip_sq_mNullOne : mb_vip_sq mNullOne 0 = 1 := by
  norm_num [mb_vip_sq, mNullOne, numFeatures, sum_squares, stackedWeights,
    Finset.sum_range_succ]

theorem mb_vip_mObs_eq : mb_vip mObs 0 = 2 := by
  unfold mb_vip
  rw [mb_vip_sq_mObs]
  rw [show (((4 : ℚ) : ℝ)) = 2 ^ 2 by norm_num]
  exact Real.sqrt_sq (by norm_num)

theorem mb_vip_mNullOne_eq : mb_vip mNullOne 0 = 1 := by
  unfold mb_vip
  rw [mb_vip_sq_mNullOne]
  norm_num

theorem concrete_null_lt_obs : ∀ i < 1, mb_vip (fitNullOne () ((fun _ => ()) i)) 0 < mb_vip mObs 0 := by
  intro i _
  show mb_vip mNullOne 0 < mb_vip mObs 0
  rw [mb_vip_mNullOne_eq, mb_vip_mObs_eq]
  norm_num

theorem concrete_p_vals_zero :
    (mb_vip_permtest fitNullOne () () 1 (fun _ => ()) mObs).p_vals 0 = 0 := by
  unfold mb_vip_permtest
  simp only []
  have hemp : (@Finset.filter ℕ
      (fun i => mb_vip mObs 0 ≤ mb_vip (fitNullOne () ((fun _ => ()) i)) 0)
      (Classical.decPred _) (Finset.range 1)) = ∅ := by
    rw [Finset.filter_eq_empty_iff]
    intro i hi
    exact not_le.mpr (concrete_null_lt_obs i (Finset.mem_range.mp hi))
  rw [hemp]
  simp

end Mamsi

namespace Mamsi

/-! ## Claim theorems -/

/-- C1: the specification says `_find_plateau` returns the `(start, end)`
index pair of the first window of `consecutive_elements` consecutive scores
whose adjacent pairs all differ by at most `range_threshold`, and that a
monotonically non-decreasing sequence flattening from index `i` yields
`start = i`.  Both fail on the code.  On `[0, 0, 0]` (monotone, flat from
index 0, under either 0- or 1-based indexing a flat window of three exists)
the code returns `(None, None)` because its loop never examines the window
containing the last element; and on `[0, 0, 0, 5]` the first flat window is
`(0, 2)` but the code returns `(1, 3)`, one above it. -/
theorem find_plateau_first_window_counterexample :
    (find_plateau [0, 0, 0] (1/100) 3 = none
      ∧ specFirstFlatWindow [0, 0, 0] (1/100) 3 = some (0, 2))
    ∧ (find_plateau [0, 0, 0, 5] (1/100) 3 = some (1, 3)
      ∧ specFirstFlatWindow [0, 0, 0, 5] (1/100) 3 = some (0, 2)) := by
  refine ⟨⟨rfl, ?_⟩, ?_, ?_⟩
  · norm_num [specFirstFlatWindow, windowFlat, List.range_succ]
  · norm_num [find_plateau, plateauAt, List.range_succ, List.range']
  · norm_num [specFirstFlatWindow, windowFlat, List.range_succ]

/-- C1 (amended): `_find_plateau` examines only the windows starting at
0-based indices `0 .. n - ce - 1` — the window made of the last `ce` scores
is never examined — and at the first examined window whose adjacent pairs
all differ by at most `range_threshold` it returns that window shifted up by
one, `(k + 1, k + ce)`; it returns `(None, None)` exactly when no examined
window is flat.  In particular a sequence with no `ce` consecutive points
within the threshold yields `(None, None)`, and a monotone sequence whose
flat run starts at index `i ≤ n - ce - 1` after a strict rise yields
`start = i + 1`. -/
theorem find_plateau_shifted_window_characterization
    (scores : List ℚ) (thr : ℚ) (ce : ℕ) :
    find_plateau scores thr ce
      = ((List.range (scores.length - ce)).find? (windowFlat scores thr ce)).map
          (fun k => (k + 1, k + ce)) := by
  unfold find_plateau
  rw [List.range'_eq_map_range, List.find?_map, plateauAt_succ_eq_windowFlat,
    Option.map_map]
  congr 1
  funext k
  simp only [Function.comp_apply]
  congr 1 <;> omega

/-- C2: `estimate_lv` computes the bend as the first index, 1-based over the
difference sequence, at which the successive difference normalized by the
first score drops strictly below `increase_threshold`; on
`[0.5, 0.7, 0.71, 0.715]` with threshold `0.05` it returns `2`. -/
theorem bend_first_normalized_drop_index :
    (∀ (data : List ℚ) (thr : ℚ),
        bend data thr
          = ((List.range (data.length - 1)).find? (bendCond data thr)).map
              (fun i => i + 1))
    ∧ bend [1/2, 7/10, 71/100, 143/200] (1/20) = some 2 := by
  refine ⟨bend_eq_find?, ?_⟩
  norm_num [bend, bendCond, List.range_succ]

/-- C7: the specification says `estimate_lv` raises a `ValueError` whenever
the requested metric is not allowed for the declared outcome type, the only
allowed metric for continuous outcomes being `q2`.  The code contradicts the
continuous half: it assigns `metric = 'q2'` before the membership test, so
`estimate_lv(..., y_continuous=True, metric='auc')` passes validation and
silently proceeds with `q2`. -/
theorem validate_metric_continuous_counterexample :
    validate_metric true "auc" = Except.ok "q2" := by
  rfl

/-- C7 (amended): the metric check of `estimate_lv` raises a `ValueError`,
before any fold computation, exactly for categorical outcomes with a metric
outside `{auc, precision, recall, f1, accuracy}`; for continuous outcomes
the metric is silently overwritten to `q2` and no error is ever raised. -/
theorem validate_metric_characterization :
    (∀ metric : String, validate_metric true metric = Except.ok "q2")
    ∧ (∀ metric : String,
        validate_metric false metric
          = if metric ∈ ["auc", "precision", "recall", "f1", "accuracy"]
            then Except.ok metric
            else Except.error "ValueError: Invalid metric for categorical outcome") := by
  constructor
  · intro metric
    rfl
  · intro metric
    by_cases h : metric ∈ ["auc", "precision", "recall", "f1", "accuracy"]
    · simp [validate_metric, h]
    · simp [validate_metric, h]

/-- C3: once the cross-validated curve is built and the bend computation
succeeds, `estimate_lv` selects the plateau start when a plateau is found
and otherwise falls back to the bend while printing the advisory that more
components should be explored; in either case it refits on the full
(non-folded) dataset at the selected count, so on return `self.n_components`
equals the selected count and the model is the one fitted on `(x, y)` at
that count. -/
theorem estimate_lv_selection_policy {X Y : Type} (x : X) (y : Y)
    (dat : List ℚ) (incThr pltThr : ℚ) (b : ℕ)
    (hb : bend dat incThr = some b) :
    ∃ sel : LvSelection X Y,
      estimate_lv_select x y dat incThr pltThr = Except.ok sel
      ∧ sel.state.n_components
          = (match find_plateau dat pltThr 3 with
             | some pr => pr.1
             | none => b)
      ∧ sel.state.fitted_on = some (x, y, sel.state.n_components)
      ∧ (find_plateau dat pltThr 3 = none → sel.advisory = true) := by
  unfold estimate_lv_select
  rw [hb]
  cases hp : find_plateau dat pltThr 3 with
  | none => exact ⟨_, rfl, rfl, rfl, fun _ => rfl⟩
  | some pr =>
      obtain ⟨ps, pe⟩ := pr
      exact ⟨_, rfl, rfl, rfl, fun hcontra => by simp at hcontra⟩

/-- C3 witness: on the curve `[0.5, 0.7, 0.71, 0.715]` with thresholds
`0.05` and `0.01` the bend is `2` and no plateau is found, so the fallback
selects `2`, prints the advisory, and refits on the full data at `2`
components. -/
theorem estimate_lv_selection_policy_witness :
    ∃ sel : LvSelection Unit Unit,
      estimate_lv_select () () [1/2, 7/10, 71/100, 143/200] (1/20) (1/100) = Except.ok sel
      ∧ sel.state.n_components
          = (match find_plateau [1/2, 7/10, 71/100, 143/200] (1/100) 3 with
             | some pr => pr.1
             | none => 2)
      ∧ sel.state.fitted_on = some ((), (), sel.state.n_components)
      ∧ (find_plateau [1/2, 7/10, 71/100, 143/200] (1/100) 3 = none → sel.advisory = true) :=
  estimate_lv_selection_policy () () _ (1/20) (1/100) 2
    (by norm_num [bend, bendCond, List.range_succ])

/-- C9: when no successive difference of the metric curve, normalized by the
first score, is strictly below `increase_threshold`, the index set fed to
`np.min` on line 247 is empty and `estimate_lv` aborts with the numpy
`ValueError` instead of returning a bend index or a typed not-found
result. -/
theorem estimate_lv_bend_empty_raises {X Y : Type} (x : X) (y : Y)
    (dat : List ℚ) (incThr pltThr : ℚ)
    (h : ∀ i < dat.length - 1, bendCond dat incThr i = false) :
    estimate_lv_select x y dat incThr pltThr
      = Except.error "ValueError: zero-size array to reduction operation minimum" := by
  have hb : bend dat incThr = none := by
    unfold bend
    have hf : (List.range (dat.length - 1)).filter (bendCond dat incThr) = [] := by
      rw [List.filter_eq_nil_iff]
      intro a ha
      rw [List.mem_range] at ha
      simp [h a ha]
    rw [hf]
    rfl
  unfold estimate_lv_select
  rw [hb]

/-- C9 witness: the curve `[1, 2, 4, 8]` improves by more than the threshold
fraction at every step, so the call aborts with the `ValueError`. -/
theorem estimate_lv_bend_empty_raises_witness :
    (∀ i < ([1, 2, 4, 8] : List ℚ).length - 1, bendCond [1, 2, 4, 8] (1/20) i = false)
    ∧ estimate_lv_select () () [1, 2, 4, 8] (1/20) (1/100)
        = Except.error "ValueError: zero-size array to reduction operation minimum" := by
  have h : ∀ i < ([1, 2, 4, 8] : List ℚ).length - 1,
      bendCond [1, 2, 4, 8] (1/20) i = false := by
    intro i hi
    simp only [List.length_cons, List.length_nil] at hi
    interval_cases i <;> norm_num [bendCond]
  exact ⟨h, estimate_lv_bend_empty_raises () () _ _ (1/100) h⟩

/-- C8: MB-VIP scores are invariant under multiplying every per-block
weight matrix by `-1` simultaneously while holding the super-scores and
y-loadings fixed: each weight enters the formula only through its square. -/
theorem mb_vip_weight_sign_invariance (m : FittedModel) :
    mb_vip (negateWeights m) = mb_vip m := by
  funext f
  unfold mb_vip
  rw [mb_vip_sq_negateWeights]

/-- C4: with `M = n_permutations` trials, the p-value `mb_vip_permtest`
returns for feature `f` equals the number of null trials whose VIP at `f` is
greater than or equal to the observed VIP at `f`, divided by `M`; when the
observed VIP at `f` strictly exceeds every null value, the p-value is `0`. -/
theorem mb_vip_permtest_pvalue_count {X Y : Type} (fit : X → Y → FittedModel)
    (x : X) (y : Y) (M : ℕ) (perm : ℕ → Y) (m0 : FittedModel) (f : ℕ) :
    (mb_vip_permtest fit x y M perm m0).p_vals f
        = (Nat.card {i : Fin M // mb_vip m0 f ≤ mb_vip (fit x (perm i.val)) f} : ℚ) / M
    ∧ ((∀ i < M, mb_vip (fit x (perm i)) f < mb_vip m0 f) →
        (mb_vip_permtest fit x y M perm m0).p_vals f = 0) := by
  constructor
  · unfold mb_vip_permtest
    simp only []
    congr 1
    classical
    norm_cast
    rw [Nat.card_eq_fintype_card]
    rw [← card_filter_range_eq M (fun i => mb_vip m0 f ≤ mb_vip (fit x (perm i)) f)]
  · intro h
    unfold mb_vip_permtest
    simp only []
    have hemp : (@Finset.filter ℕ
        (fun i => mb_vip m0 f ≤ mb_vip (fit x (perm i)) f)
        (Classical.decPred _) (Finset.range M)) = ∅ := by
      rw [Finset.filter_eq_empty_iff]
      intro i hi
      exact not_le.mpr (h i (Finset.mem_range.mp hi))
    rw [hemp]
    simp

/-- C4 witness: one trial, observed VIP `2`, null VIP `1`: the observed
score strictly dominates the single null value and the p-value is `0`. -/
theorem mb_vip_permtest_pvalue_count_witness :
    (∀ i < 1, mb_vip (fitNullOne () ((fun _ => ()) i)) 0 < mb_vip mObs 0)
    ∧ (mb_vip_permtest fitNullOne () () 1 (fun _ => ()) mObs).p_vals 0 = 0 :=
  ⟨concrete_null_lt_obs,
    (mb_vip_permtest_pvalue_count fitNullOne () () 1 (fun _ => ()) mObs 0).2
      concrete_null_lt_obs⟩

/-- C5: the specification claims every entry of the returned p-value vector
lies in `[1/n_permutations, 1]`.  With one permutation whose null VIP falls
strictly below the observed VIP, `mb_vip_permtest` returns the p-value `0`,
which is below the claimed lower bound `1/1`. -/
theorem mb_vip_permtest_pvalue_lower_bound_counterexample :
    (mb_vip_permtest fitNullOne () () 1 (fun _ => ()) mObs).p_vals 0 = 0
    ∧ ¬ ((1 : ℚ) / 1
        ≤ (mb_vip_permtest fitNullOne () () 1 (fun _ => ()) mObs).p_vals 0) := by
  refine ⟨concrete_p_vals_zero, ?_⟩
  rw [concrete_p_vals_zero]
  norm_num

/-- C5 (amended): for `n_permutations ≥ 1`, every entry of the returned
p-value vector lies in `[0, 1]`; the lower end is attained exactly when the
observed VIP strictly dominates all null trials at that feature, so the
interval cannot be narrowed to `[1/n_permutations, 1]`. -/
theorem mb_vip_permtest_pvalue_unit_interval {X Y : Type} (fit : X → Y → FittedModel)
    (x : X) (y : Y) (M : ℕ) (perm : ℕ → Y) (m0 : FittedModel) (f : ℕ) (hM : 1 ≤ M) :
    0 ≤ (mb_vip_permtest fit x y M perm m0).p_vals f
    ∧ (mb_vip_permtest fit x y M perm m0).p_vals f ≤ 1 := by
  unfold mb_vip_permtest
  simp only []
  constructor
  · positivity
  · have hM' : (0 : ℚ) < M := by exact_mod_cast hM
    rw [div_le_one hM']
    have hcard : (@Finset.filter ℕ
        (fun i => mb_vip m0 f ≤ mb_vip (fit x (perm i)) f)
        (Classical.decPred _) (Finset.range M)).card ≤ M :=
      le_trans (Finset.card_filter_le _ _) (le_of_eq (Finset.card_range M))
    exact_mod_cast hcard

/-- C5 amended-claim witness at one permutation. -/
theorem mb_vip_permtest_pvalue_unit_interval_witness :
    0 ≤ (mb_vip_permtest fitNullOne () () 1 (fun _ => ()) mObs).p_vals 0
    ∧ (mb_vip_permtest fitNullOne () () 1 (fun _ => ()) mObs).p_vals 0 ≤ 1 :=
  mb_vip_permtest_pvalue_unit_interval fitNullOne () () 1 (fun _ => ()) mObs 0
    (le_refl 1)

/-- C10: for `n_permutations ≥ 1` the model state `mb_vip_permtest` leaves
behind is the fit against the last permuted response — the method never
refits on the original response after the loop — and consequently the final
state does not depend on the fitted model that existed on entry. -/
theorem mb_vip_permtest_final_state_overwritten {X Y : Type}
    (fit : X → Y → FittedModel) (x : X) (y : Y) (M : ℕ) (perm : ℕ → Y)
    (m0 : FittedModel) (hM : 1 ≤ M) :
    (mb_vip_permtest fit x y M perm m0).finalModel = fit x (perm (M - 1))
    ∧ ∀ m1 : FittedModel,
        (mb_vip_permtest fit x y M perm m0).finalModel
          = (mb_vip_permtest fit x y M perm m1).finalModel := by
  have hM0 : M ≠ 0 := by omega
  unfold mb_vip_permtest
  simp [hM0]

/-- C10 witness: one trial starting from the observed model `mObs`; the
final state is the null fit, regardless of the entry state. -/
theorem mb_vip_permtest_final_state_overwritten_witness :
    (mb_vip_permtest fitNullOne () () 1 (fun _ => ()) mObs).finalModel
        = fitNullOne () ((fun _ => ()) (1 - 1))
    ∧ ∀ m1 : FittedModel,
        (mb_vip_permtest fitNullOne () () 1 (fun _ => ()) mObs).finalModel
          = (mb_vip_permtest fitNullOne () () 1 (fun _ => ()) m1).finalModel :=
  mb_vip_permtest_final_state_overwritten fitNullOne () () 1 (fun _ => ()) mObs
    (le_refl 1)

/-- C6: the specification says the deep copy taken at line 381 makes all
loop refits operate on data independent of the caller-owned structures.  The
code contradicts its own inline comment (`deepcopy to prevent data
leakage`): line 399 passes the caller-supplied `x` itself to `self.fit`,
never the deep copy, for every block object identity. -/
theorem mb_vip_permtest_fit_uses_caller_blocks (x_id : ℕ) :
    (mb_vip_permtest_blocksFlow x_id).fit_arg_id = x_id
    ∧ (mb_vip_permtest_blocksFlow x_id).fit_arg_id
        ≠ (mb_vip_permtest_blocksFlow x_id).deepcopy_id := by
  refine ⟨rfl, ?_⟩
  simp [mb_vip_permtest_blocksFlow]

end Mamsi
